import Mathlib

/-!
Verification of the Netlify serverless chat function in
`netlify/functions/chat.js` (the repository's only source file).

The handler is embedded shallowly:

* JSON values produced by `JSON.parse` (and consumed by `JSON.stringify`)
  are modelled by the inductive type `Chat.Json`; response bodies are kept
  at the value level (the JS code always returns `JSON.stringify` of a
  JSON value, and stringification is injective, so nothing observable is
  lost by comparing values instead of their serialisations).
* The three impure inputs of the handler are explicit parameters:
  `jsonParse` stands for the library function `JSON.parse` (returning
  `none` where `JSON.parse` throws a `SyntaxError`), `fetchGemini` stands
  for the outbound `fetch` to the Gemini endpoint together with the
  subsequent `response.json()` / `response.text()` reads, and `nowISO`
  stands for the reading of `new Date().toISOString()` in the GET branch.
* `process.env.GEMINI_API_KEY` is the parameter `geminiApiKey : Option
  String` (`none` when the variable is unset).
* JavaScript semantics relevant to the code is embedded faithfully:
  truthiness tests (`!process.env.GEMINI_API_KEY`, `payload.model || d`,
  `payload.generationConfig || d`, `err.message || d`,
  `event.body || "..."`), and property access, which on the JSON value
  `null` throws a `TypeError` (modelled by `HandlerOutcome.uncaught`,
  since line 53 of the source performs `payload.contents` outside any
  try/catch that would intercept a `TypeError`).
-/

namespace Chat

/-- JSON values, as produced by a successful `JSON.parse`.  Object fields
are an association list; `JSON.parse` never yields duplicate keys (a later
duplicate overwrites an earlier one), so lookup order is immaterial for
its outputs.  Numbers are exact rationals, which covers every numeral in
the source (`0.8`, `40`, `0.95`, `1024`). -/
inductive Json where
  | null
  | bool (b : Bool)
  | num (q : ℚ)
  | str (s : String)
  | arr (elems : List Json)
  | obj (fields : List (String × Json))

/-- First-match lookup of a key in a JSON object's field list. -/
def jsLookup : List (String × Json) → String → Option Json
  | [], _ => none
  | (k, v) :: rest, key => if k = key then some v else jsLookup rest key

/-- JavaScript ToBoolean on a JSON value.  `NaN`, `undefined` and
non-JSON objects cannot come out of `JSON.parse`, so this covers every
value the handler tests.  Arrays and objects (even empty ones) are
truthy. -/
def truthyJson : Json → Bool
  | .null => false
  | .bool b => b
  | .num q => q != 0
  | .str s => s != ""
  | .arr _ => true
  | .obj _ => true

/-- JavaScript property access `v.key` on a `JSON.parse` result: on the
value `null` it throws a `TypeError`; on an object it looks the key up
(yielding `none` for "undefined" when absent); on any other JSON value it
yields undefined (`none`). -/
def getProp : Json → String → Except String (Option Json)
  | .null, _ => .error "TypeError"
  | .obj fields, key => .ok (jsLookup fields key)
  | _, _ => .ok none

/-- Property access `v.key` at a program point where control flow has
already established that `v` is not `null` (in the handler: lines 62 and
68 run only after `payload.contents` was read successfully, so `payload`
is an object there). -/
def jsGetField : Json → String → Option Json
  | .obj fields, key => jsLookup fields key
  | _, _ => none

/-- JavaScript `a || b` where `a` is a property-access result
(`none` = undefined, which is falsy). -/
def jsOr : Option Json → Json → Json
  | some v, d => if truthyJson v then v else d
  | none, d => d

/-- JavaScript `a || b` on an optional string (`err.message || d`):
an absent or empty message is falsy. -/
def jsOrString : Option String → String → String
  | some s, d => if s = "" then d else s
  | none, d => d

/-- Truthiness of an optional environment string, as in
`!process.env.GEMINI_API_KEY` (line 37): unset or empty is falsy. -/
def jsStringTruthy : Option String → Bool
  | none => false
  | some s => s != ""

/-- The expression `event.body || "\x7b\x7d"` of line 47: a missing,
null or empty body is replaced by the text of the empty JSON object. -/
def bodyOrEmptyObject : Option String → String
  | none => "\x7b\x7d"
  | some s => if s = "" then "\x7b\x7d" else s

/-- The `corsHeaders` function of lines 8-16: four fixed headers plus any
extra entries (`...extra`; every call site in the source passes none). -/
def corsHeaders (extra : List (String × String)) : List (String × String) :=
  [("Access-Control-Allow-Origin", "*"),
   ("Access-Control-Allow-Methods", "POST,OPTIONS,GET"),
   ("Access-Control-Allow-Headers", "Content-Type, Authorization"),
   ("Content-Type", "application/json")] ++ extra

/-- The inbound Netlify event: method, and body text (`none` when the
request carries no body, i.e. `event.body` is null/undefined). -/
structure Event where
  httpMethod : String
  body : Option String

/-- A response object as returned by the handler.  `body` is the JSON
value whose `JSON.stringify` the source places in the response body
(`none` for the body-less 204 preflight response). -/
structure LambdaResponse where
  statusCode : ℕ
  headers : List (String × String)
  body : Option Json

/-- The data determining one outbound `fetch` of lines 78-82: the model
value and the API key (interpolated into the URL
`https://generativelanguage.googleapis.com/v1beta/models/MODEL:generateContent?key=KEY`),
the outbound headers, and the JSON request body. -/
structure FetchCall where
  model : Json
  apiKey : String
  requestHeaders : List (String × String)
  body : Json

/-- The observable outcome of the awaited `fetch` (plus the follow-up
body read): an `ok` response whose `response.json()` resolves to `body`;
a non-`ok` response with its status and `response.text()`; or a rejection
of any of those awaits, carrying `err.message` (`none` when the thrown
value has no message). -/
inductive FetchOutcome where
  | success (body : Json)
  | httpError (status : ℕ) (errorText : String)
  | failure (message : Option String)

/-- What one handler invocation does: either it resolves with a response,
or it rejects with an uncaught exception (never producing a response).
Either way, `calls` records the outbound fetches that were issued. -/
inductive HandlerOutcome where
  | ok (response : LambdaResponse) (calls : List FetchCall)
  | uncaught (error : String) (calls : List FetchCall)

/-- The list of outbound calls an outcome records. -/
def HandlerOutcome.callList : HandlerOutcome → List FetchCall
  | .ok _ calls => calls
  | .uncaught _ calls => calls

/-- Body of the 405 response (line 33). -/
def methodNotAllowedError : Json := .obj [("error", .str "Method Not Allowed")]

/-- Body of the 500 response for a missing key (lines 38-43). -/
def missingKeyError : Json :=
  .obj [("error", .str "GEMINI_API_KEY not configured in Netlify environment variables")]

/-- Body of the 400 response for an unparsable body (line 49). -/
def invalidJsonError : Json := .obj [("error", .str "Invalid JSON body")]

/-- Body of the 400 response for a missing/non-array `contents` (lines 54-58). -/
def missingContentsError : Json :=
  .obj [("error", .str "Request must include \"contents\" array")]

/-- The `model` constant of line 62: `payload.model || "gemini-2.5-flash"`. -/
def model (payload : Json) : Json :=
  jsOr (jsGetField payload "model") (.str "gemini-2.5-flash")

/-- The `generationConfig` default object of lines 68-73. -/
def defaultGenerationConfig : Json :=
  .obj [("temperature", .num 0.8), ("topK", .num 40),
        ("topP", .num 0.95), ("maxOutputTokens", .num 1024)]

/-- The `requestBody` constant of lines 66-74.  `contents` is the value
of `payload.contents`, which the guard of line 53 has established to be a
(truthy) array. -/
def requestBody (payload : Json) (contents : Json) : Json :=
  .obj [("contents", contents),
        ("generationConfig",
          jsOr (jsGetField payload "generationConfig") defaultGenerationConfig)]

/-- The outbound call of lines 78-82, determined by the key, the payload
and its `contents` value. -/
def geminiCall (apiKey : String) (payload : Json) (contents : Json) : FetchCall :=
  { model := model payload
    apiKey := apiKey
    requestHeaders := [("Content-Type", "application/json")]
    body := requestBody payload contents }

/-- The handler of lines 18-111, branch for branch.  The guard of line 53,
`!payload.contents || !Array.isArray(payload.contents)`, passes exactly
when `payload.contents` is an array (every array is truthy), so the
forwarding branch matches `.ok (some (Json.arr cs))`; reading
`payload.contents` when `payload` is the JSON value `null` throws an
uncaught `TypeError` (`.uncaught`). -/
def handler (geminiApiKey : Option String) (jsonParse : String → Option Json)
    (fetchGemini : FetchCall → FetchOutcome) (nowISO : String)
    (event : Event) : HandlerOutcome :=
  if event.httpMethod = "OPTIONS" then
    .ok { statusCode := 204, headers := corsHeaders [], body := none } []
  else if event.httpMethod = "GET" then
    .ok { statusCode := 200, headers := corsHeaders [],
          body := some (.obj [("status", .str "ok"), ("time", .str nowISO)]) } []
  else if event.httpMethod ≠ "POST" then
    .ok { statusCode := 405, headers := corsHeaders [],
          body := some methodNotAllowedError } []
  else if jsStringTruthy geminiApiKey = false then
    .ok { statusCode := 500, headers := corsHeaders [],
          body := some missingKeyError } []
  else
    match jsonParse (bodyOrEmptyObject event.body) with
    | none =>
      .ok { statusCode := 400, headers := corsHeaders [],
            body := some invalidJsonError } []
    | some payload =>
      match getProp payload "contents" with
      | .error e => .uncaught e []
      | .ok (some (Json.arr cs)) =>
        match fetchGemini (geminiCall (geminiApiKey.getD "") payload (Json.arr cs)) with
        | .success data =>
          .ok { statusCode := 200, headers := corsHeaders [], body := some data }
            [geminiCall (geminiApiKey.getD "") payload (Json.arr cs)]
        | .httpError status errorText =>
          .ok { statusCode := status, headers := corsHeaders [],
                body := some (.obj [("error", .str ("Gemini API Error: " ++ toString status)),
                                    ("details", .str errorText)]) }
            [geminiCall (geminiApiKey.getD "") payload (Json.arr cs)]
        | .failure message =>
          .ok { statusCode := 500, headers := corsHeaders [],
                body := some (.obj [("error", .str (jsOrString message "Failed to call Gemini API"))]) }
            [geminiCall (geminiApiKey.getD "") payload (Json.arr cs)]
      | .ok _ =>
        .ok { statusCode := 400, headers := corsHeaders [],
              body := some missingContentsError } []

/-- The keys of a JSON object, in order (used to state which fields the
upstream request body carries). -/
def objKeys : Json → List String
  | .obj fields => fields.map Prod.fst
  | _ => []

/-! Concrete inputs used to instantiate the theorems below.  They play the
role of the mocks in the specification's test plan; none of them is part
of the embedding of the source. -/

/-- Elements of the `contents` array of the specification's example
request `\x7b"contents":[\x7b"role":"user","parts":[\x7b"text":"hi"\x7d]\x7d]\x7d`. -/
def exampleContentsList : List Json :=
  [.obj [("role", .str "user"), ("parts", .arr [.obj [("text", .str "hi")]])]]

/-- The specification's example payload, parsed. -/
def examplePayload : Json := .obj [("contents", .arr exampleContentsList)]

/-- The specification's example request body, as text. -/
def exampleBodyText : String :=
  "\x7b\"contents\":[\x7b\"role\":\"user\",\"parts\":[\x7b\"text\":\"hi\"\x7d]\x7d]\x7d"

/-- A payload whose `generationConfig` field is supplied but falsy. -/
def falsyGenConfigPayload : Json :=
  .obj [("contents", .arr []), ("generationConfig", .bool false)]

/-- Body text for `falsyGenConfigPayload`. -/
def falsyGenConfigBodyText : String :=
  "\x7b\"contents\":[],\"generationConfig\":false\x7d"

/-- A payload carrying fields beyond `contents`. -/
def extraFieldPayload : Json :=
  .obj [("contents", .arr []), ("extra", .num 1), ("foo", .str "bar")]

/-- Body text for `extraFieldPayload`. -/
def extraFieldBodyText : String :=
  "\x7b\"contents\":[],\"extra\":1,\"foo\":\"bar\"\x7d"

/-- A concrete stand-in for `JSON.parse` on the handful of body texts the
concrete instantiations use; every other string is rejected, as an
unparsable body would be. -/
def mockJsonParse : String → Option Json := fun s =>
  if s = "\x7b\x7d" then some (.obj [])
  else if s = "null" then some .null
  else if s = exampleBodyText then some examplePayload
  else if s = falsyGenConfigBodyText then some falsyGenConfigPayload
  else if s = extraFieldBodyText then some extraFieldPayload
  else none

/-- A mocked upstream success body, like the specification's
`\x7b"candidates":[...]\x7d`. -/
def mockUpstreamBody : Json :=
  .obj [("candidates", .arr [.obj [("content", .str "ok")]])]

/-- An upstream that always succeeds with `mockUpstreamBody`. -/
def mockUpstreamSuccess : FetchCall → FetchOutcome := fun _ => .success mockUpstreamBody

/-- An upstream that always answers 429 with text "rate limited". -/
def mockUpstreamRateLimited : FetchCall → FetchOutcome := fun _ => .httpError 429 "rate limited"

/-- An upstream whose transport always fails, with a message-less error. -/
def mockUpstreamDown : FetchCall → FetchOutcome := fun _ => .failure none

/-- The `contents` field of the built upstream request body is the value
passed in. -/
theorem requestBody_contents_field (payload contents : Json) :
    jsGetField (requestBody payload contents) "contents" = some contents := rfl

/-- The `generationConfig` field of the built upstream request body is
the JavaScript-or of the supplied one and the default. -/
theorem requestBody_generation_config_field (payload contents : Json) :
    jsGetField (requestBody payload contents) "generationConfig" =
      some (jsOr (jsGetField payload "generationConfig") defaultGenerationConfig) := rfl

/-- C1: every response the handler produces — on the preflight, health
check, method rejection, each validation failure, upstream error relay,
transport failure and success branches alike — carries the four fixed
headers `Access-Control-Allow-Origin: *`,
`Access-Control-Allow-Methods: POST,OPTIONS,GET`,
`Access-Control-Allow-Headers: Content-Type, Authorization` and
`Content-Type: application/json`. -/
theorem c1_every_response_has_cors_headers
    (geminiApiKey : Option String) (jsonParse : String → Option Json)
    (fetchGemini : FetchCall → FetchOutcome) (nowISO : String) (event : Event)
    (r : LambdaResponse) (calls : List FetchCall)
    (h : handler geminiApiKey jsonParse fetchGemini nowISO event = .ok r calls) :
    r.headers = [("Access-Control-Allow-Origin", "*"),
      ("Access-Control-Allow-Methods", "POST,OPTIONS,GET"),
      ("Access-Control-Allow-Headers", "Content-Type, Authorization"),
      ("Content-Type", "application/json")] := by
  unfold handler at h
  repeat' split at h
  all_goals first
    | (injection h with h1 h2; subst h1; rfl)
    | injection h

/-- Witness for C1 at the concrete preflight request. -/
theorem c1_every_response_has_cors_headers_witness :
    (LambdaResponse.mk 204 (corsHeaders []) none).headers =
      [("Access-Control-Allow-Origin", "*"),
       ("Access-Control-Allow-Methods", "POST,OPTIONS,GET"),
       ("Access-Control-Allow-Headers", "Content-Type, Authorization"),
       ("Content-Type", "application/json")] :=
  c1_every_response_has_cors_headers none mockJsonParse mockUpstreamSuccess
    "2025-01-01T00:00:00.000Z" (Event.mk "OPTIONS" none)
    (LambdaResponse.mk 204 (corsHeaders []) none) [] rfl

/-- C2: for every POST request that passes validation (secret configured,
body parses, `contents` is an array), an upstream success is relayed as a
200 whose body is the upstream JSON body itself, untransformed. -/
theorem c2_success_passthrough
    (geminiApiKey : Option String) (jsonParse : String → Option Json)
    (fetchGemini : FetchCall → FetchOutcome) (nowISO : String) (event : Event)
    (payload : Json) (cs : List Json) (data : Json)
    (hm : event.httpMethod = "POST")
    (hk : jsStringTruthy geminiApiKey = true)
    (hp : jsonParse (bodyOrEmptyObject event.body) = some payload)
    (hc : getProp payload "contents" = .ok (some (Json.arr cs)))
    (hu : fetchGemini (geminiCall (geminiApiKey.getD "") payload (Json.arr cs)) =
      .success data) :
    handler geminiApiKey jsonParse fetchGemini nowISO event =
      .ok (LambdaResponse.mk 200 (corsHeaders []) (some data))
        [geminiCall (geminiApiKey.getD "") payload (Json.arr cs)] := by
  obtain ⟨m, b⟩ := event
  simp only at hm hp
  subst hm
  simp +decide [handler, hk, hp, hc, hu]

/-- Witness for C2 at the specification's example request against a
succeeding upstream. -/
theorem c2_success_passthrough_witness :
    handler (some "k") mockJsonParse mockUpstreamSuccess "t"
        (Event.mk "POST" (some exampleBodyText)) =
      .ok (LambdaResponse.mk 200 (corsHeaders []) (some mockUpstreamBody))
        [geminiCall "k" examplePayload (.arr exampleContentsList)] :=
  c2_success_passthrough (some "k") mockJsonParse mockUpstreamSuccess "t"
    (Event.mk "POST" (some exampleBodyText)) examplePayload exampleContentsList
    mockUpstreamBody rfl rfl rfl rfl rfl

/-- C3: for every validated POST, an upstream non-success status S with
error text T is relayed as status exactly S, with a JSON body whose
`error` field names S (it ends in the decimal of S) and whose `details`
field is T. -/
theorem c3_upstream_error_relayed
    (geminiApiKey : Option String) (jsonParse : String → Option Json)
    (fetchGemini : FetchCall → FetchOutcome) (nowISO : String) (event : Event)
    (payload : Json) (cs : List Json) (status : ℕ) (errorText : String)
    (hm : event.httpMethod = "POST")
    (hk : jsStringTruthy geminiApiKey = true)
    (hp : jsonParse (bodyOrEmptyObject event.body) = some payload)
    (hc : getProp payload "contents" = .ok (some (Json.arr cs)))
    (hu : fetchGemini (geminiCall (geminiApiKey.getD "") payload (Json.arr cs)) =
      .httpError status errorText) :
    handler geminiApiKey jsonParse fetchGemini nowISO event =
      .ok (LambdaResponse.mk status (corsHeaders [])
        (some (Json.obj [("error", Json.str ("Gemini API Error: " ++ toString status)),
                         ("details", Json.str errorText)])))
        [geminiCall (geminiApiKey.getD "") payload (Json.arr cs)] ∧
    (∃ pre, "Gemini API Error: " ++ toString status = pre ++ toString status) := by
  refine ⟨?_, "Gemini API Error: ", rfl⟩
  obtain ⟨m, b⟩ := event
  simp only at hm hp
  subst hm
  simp +decide [handler, hk, hp, hc, hu]

/-- Witness for C3: the specification's 429 / "rate limited" scenario. -/
theorem c3_upstream_error_relayed_witness :
    handler (some "k") mockJsonParse mockUpstreamRateLimited "t"
        (Event.mk "POST" (some exampleBodyText)) =
      .ok (LambdaResponse.mk 429 (corsHeaders [])
        (some (Json.obj [("error", Json.str "Gemini API Error: 429"),
                         ("details", Json.str "rate limited")])))
        [geminiCall "k" examplePayload (.arr exampleContentsList)] :=
  (c3_upstream_error_relayed (some "k") mockJsonParse mockUpstreamRateLimited "t"
    (Event.mk "POST" (some exampleBodyText)) examplePayload exampleContentsList
    429 "rate limited" rfl rfl rfl rfl rfl).1

/-- C4: a POST with the secret absent is answered 500 with the
explanatory error object, with no outbound call, whatever the body. -/
theorem c4_missing_key_500_no_call (jsonParse : String → Option Json)
    (fetchGemini : FetchCall → FetchOutcome) (nowISO : String) (body : Option String) :
    handler none jsonParse fetchGemini nowISO (Event.mk "POST" body) =
      .ok (LambdaResponse.mk 500 (corsHeaders []) (some missingKeyError)) [] := rfl

/-- C5 (code bug): a POST whose body is the five characters `null`
parses to the JSON value null, which lacks a `contents` field, yet the
handler does not answer 400: reading `payload.contents` on null throws
an uncaught TypeError, so no response is produced (no outbound call is
made either). -/
theorem c5_null_body_uncaught_typeerror :
    handler (some "k") mockJsonParse mockUpstreamSuccess "t"
        (Event.mk "POST" (some "null")) =
      .uncaught "TypeError" [] := rfl

/-- C6: for every validated POST whose outbound call fails, the handler
still resolves with exactly one response: a 500 whose `error` field is
the failure's message, or the fixed fallback text when the message is
absent (or empty, which JavaScript's `||` also replaces). -/
theorem c6_transport_failure_500
    (geminiApiKey : Option String) (jsonParse : String → Option Json)
    (fetchGemini : FetchCall → FetchOutcome) (nowISO : String) (event : Event)
    (payload : Json) (cs : List Json) (message : Option String)
    (hm : event.httpMethod = "POST")
    (hk : jsStringTruthy geminiApiKey = true)
    (hp : jsonParse (bodyOrEmptyObject event.body) = some payload)
    (hc : getProp payload "contents" = .ok (some (Json.arr cs)))
    (hu : fetchGemini (geminiCall (geminiApiKey.getD "") payload (Json.arr cs)) =
      .failure message) :
    handler geminiApiKey jsonParse fetchGemini nowISO event =
      .ok (LambdaResponse.mk 500 (corsHeaders [])
        (some (Json.obj [("error",
          Json.str (jsOrString message "Failed to call Gemini API"))])))
        [geminiCall (geminiApiKey.getD "") payload (Json.arr cs)] := by
  obtain ⟨m, b⟩ := event
  simp only at hm hp
  subst hm
  simp +decide [handler, hk, hp, hc, hu]

/-- Witness for C6: a message-less transport failure yields the generic
fallback message. -/
theorem c6_transport_failure_500_witness :
    handler (some "k") mockJsonParse mockUpstreamDown "t"
        (Event.mk "POST" (some exampleBodyText)) =
      .ok (LambdaResponse.mk 500 (corsHeaders [])
        (some (Json.obj [("error", Json.str "Failed to call Gemini API")])))
        [geminiCall "k" examplePayload (.arr exampleContentsList)] :=
  c6_transport_failure_500 (some "k") mockJsonParse mockUpstreamDown "t"
    (Event.mk "POST" (some exampleBodyText)) examplePayload exampleContentsList
    none rfl rfl rfl rfl rfl

/-- C7 counterexample: a supplied `generationConfig` is NOT always copied
verbatim.  With the payload `\x7b"contents":[],"generationConfig":false\x7d`
the inbound `generationConfig` is the JSON value false, yet the body sent
upstream carries the fixed default instead, because line 68 of the source
selects with `||`, which discards any falsy supplied value. -/
theorem c7_falsy_generation_config_counterexample :
    handler (some "k") mockJsonParse mockUpstreamSuccess "t"
        (Event.mk "POST" (some falsyGenConfigBodyText)) =
      .ok (LambdaResponse.mk 200 (corsHeaders []) (some mockUpstreamBody))
        [geminiCall "k" falsyGenConfigPayload (.arr [])] ∧
    jsGetField falsyGenConfigPayload "generationConfig" = some (Json.bool false) ∧
    jsGetField (geminiCall "k" falsyGenConfigPayload (.arr [])).body "generationConfig" =
      some defaultGenerationConfig ∧
    defaultGenerationConfig ≠ Json.bool false :=
  ⟨rfl, rfl, rfl, fun h => Json.noConfusion h⟩

/-- C7 as amended: for every validated POST, exactly one upstream call is
made; its body's `contents` is the inbound `contents` verbatim, and its
`generationConfig` is the inbound `generationConfig` verbatim when a
truthy one is supplied, while a supplied-but-falsy or absent
`generationConfig` is replaced by the fixed default
temperature 0.8, topK 40, topP 0.95, maxOutputTokens 1024. -/
theorem c7_generation_config_selection
    (geminiApiKey : Option String) (jsonParse : String → Option Json)
    (fetchGemini : FetchCall → FetchOutcome) (nowISO : String) (event : Event)
    (payload : Json) (cs : List Json)
    (hm : event.httpMethod = "POST")
    (hk : jsStringTruthy geminiApiKey = true)
    (hp : jsonParse (bodyOrEmptyObject event.body) = some payload)
    (hc : getProp payload "contents" = .ok (some (Json.arr cs))) :
    (handler geminiApiKey jsonParse fetchGemini nowISO event).callList =
      [geminiCall (geminiApiKey.getD "") payload (Json.arr cs)] ∧
    jsGetField (geminiCall (geminiApiKey.getD "") payload (Json.arr cs)).body "contents" =
      some (Json.arr cs) ∧
    (∀ g, jsGetField payload "generationConfig" = some g → truthyJson g = true →
      jsGetField (geminiCall (geminiApiKey.getD "") payload (Json.arr cs)).body
        "generationConfig" = some g) ∧
    (∀ g, jsGetField payload "generationConfig" = some g → truthyJson g = false →
      jsGetField (geminiCall (geminiApiKey.getD "") payload (Json.arr cs)).body
        "generationConfig" = some defaultGenerationConfig) ∧
    (jsGetField payload "generationConfig" = none →
      jsGetField (geminiCall (geminiApiKey.getD "") payload (Json.arr cs)).body
        "generationConfig" = some defaultGenerationConfig) := by
  refine ⟨?_, ?_, ?_, ?_, ?_⟩
  · obtain ⟨m, b⟩ := event
    simp only at hm hp
    subst hm
    rcases hfo : fetchGemini (geminiCall (geminiApiKey.getD "") payload (Json.arr cs))
      with d | ⟨s, t⟩ | msg <;>
      simp +decide [handler, hk, hp, hc, hfo, HandlerOutcome.callList]
  · exact requestBody_contents_field payload (Json.arr cs)
  · intro g hg htr
    rw [show (geminiCall (geminiApiKey.getD "") payload (Json.arr cs)).body =
        requestBody payload (Json.arr cs) from rfl,
      requestBody_generation_config_field, hg]
    simp [jsOr, htr]
  · intro g hg htr
    rw [show (geminiCall (geminiApiKey.getD "") payload (Json.arr cs)).body =
        requestBody payload (Json.arr cs) from rfl,
      requestBody_generation_config_field, hg]
    simp [jsOr, htr]
  · intro hg
    rw [show (geminiCall (geminiApiKey.getD "") payload (Json.arr cs)).body =
        requestBody payload (Json.arr cs) from rfl,
      requestBody_generation_config_field, hg]
    simp [jsOr]

/-- Witness for the amended C7 at the falsy-`generationConfig` payload:
the supplied false is replaced by the default. -/
theorem c7_generation_config_selection_witness :
    jsGetField (geminiCall "k" falsyGenConfigPayload (.arr [])).body "generationConfig" =
      some defaultGenerationConfig :=
  (c7_generation_config_selection (some "k") mockJsonParse mockUpstreamSuccess "t"
    (Event.mk "POST" (some falsyGenConfigBodyText)) falsyGenConfigPayload []
    rfl rfl rfl rfl).2.2.2.1 (Json.bool false) rfl rfl

/-- C8: the submission path is deterministic.  In the embedding every
source of impurity is an explicit parameter, and on a POST request the
result does not even depend on the clock (the one impure input the
source reads besides the parameters); with equal key, parse and upstream
behaviour, two runs on the same request are definitionally equal. -/
theorem c8_post_response_clock_independent
    (geminiApiKey : Option String) (jsonParse : String → Option Json)
    (fetchGemini : FetchCall → FetchOutcome) (t1 t2 : String) (body : Option String) :
    handler geminiApiKey jsonParse fetchGemini t1 (Event.mk "POST" body) =
      handler geminiApiKey jsonParse fetchGemini t2 (Event.mk "POST" body) := rfl

/-- C9: with the secret configured, a POST whose body is absent or empty
is parsed as the empty JSON object and rejected 400 with the
missing-`contents` error, not the invalid-JSON error; conversely the
invalid-JSON 400 response arises only from a present, non-empty body
that fails to parse. -/
theorem c9_empty_body_as_empty_object
    (geminiApiKey : Option String) (jsonParse : String → Option Json)
    (fetchGemini : FetchCall → FetchOutcome) (nowISO : String)
    (hk : jsStringTruthy geminiApiKey = true)
    (hp : jsonParse "\x7b\x7d" = some (Json.obj [])) :
    (∀ b, b = none ∨ b = some "" →
      handler geminiApiKey jsonParse fetchGemini nowISO (Event.mk "POST" b) =
        .ok (LambdaResponse.mk 400 (corsHeaders []) (some missingContentsError)) []) ∧
    (∀ b r calls,
      handler geminiApiKey jsonParse fetchGemini nowISO (Event.mk "POST" b) = .ok r calls →
      r.statusCode = 400 → r.body = some invalidJsonError →
      ∃ s, b = some s ∧ s ≠ "" ∧ jsonParse s = none) := by
  constructor
  · rintro b (rfl | rfl) <;>
      simp +decide [handler, bodyOrEmptyObject, hk, hp, getProp, jsLookup]
  · rintro b r calls h h400 hbody
    unfold handler at h
    repeat' split at h
    all_goals first
      | (injection h with h1 h2; subst h1; subst h2)
      | injection h
    all_goals simp_all +decide [invalidJsonError, missingContentsError, missingKeyError,
      methodNotAllowedError]
    rename_i heq
    rcases b with _ | s
    · rw [show bodyOrEmptyObject none = "\x7b\x7d" from rfl] at heq
      rw [hp] at heq
      exact Option.noConfusion heq
    · by_cases hs : s = ""
      · subst hs
        rw [show bodyOrEmptyObject (some "") = "\x7b\x7d" from rfl] at heq
        rw [hp] at heq
        exact Option.noConfusion heq
      · exact ⟨s, rfl, hs, by simpa [bodyOrEmptyObject, hs] using heq⟩

/-- Witness for C9 at an absent body: the handler answers 400 with the
missing-`contents` error. -/
theorem c9_empty_body_as_empty_object_witness :
    handler (some "k") mockJsonParse mockUpstreamSuccess "t" (Event.mk "POST" none) =
      .ok (LambdaResponse.mk 400 (corsHeaders []) (some missingContentsError)) [] :=
  (c9_empty_body_as_empty_object (some "k") mockJsonParse mockUpstreamSuccess "t"
    rfl rfl).1 none (Or.inl rfl)

/-- C10: for every validated POST, exactly one upstream call is made and
its body carries exactly the two fields `contents` and
`generationConfig`, in this order — whatever other fields the inbound
payload had, none is forwarded. -/
theorem c10_upstream_body_exact_fields
    (geminiApiKey : Option String) (jsonParse : String → Option Json)
    (fetchGemini : FetchCall → FetchOutcome) (nowISO : String) (event : Event)
    (payload : Json) (cs : List Json)
    (hm : event.httpMethod = "POST")
    (hk : jsStringTruthy geminiApiKey = true)
    (hp : jsonParse (bodyOrEmptyObject event.body) = some payload)
    (hc : getProp payload "contents" = .ok (some (Json.arr cs))) :
    (handler geminiApiKey jsonParse fetchGemini nowISO event).callList =
      [geminiCall (geminiApiKey.getD "") payload (Json.arr cs)] ∧
    objKeys (geminiCall (geminiApiKey.getD "") payload (Json.arr cs)).body =
      ["contents", "generationConfig"] := by
  constructor
  · obtain ⟨m, b⟩ := event
    simp only at hm hp
    subst hm
    rcases hfo : fetchGemini (geminiCall (geminiApiKey.getD "") payload (Json.arr cs))
      with d | ⟨s, t⟩ | msg <;>
      simp +decide [handler, hk, hp, hc, hfo, HandlerOutcome.callList]
  · simp [geminiCall, requestBody, objKeys]

/-- Witness for C10 at a payload with two extra fields: the upstream body
still has exactly the two expected keys. -/
theorem c10_upstream_body_exact_fields_witness :
    objKeys (geminiCall "k" extraFieldPayload (.arr [])).body =
      ["contents", "generationConfig"] :=
  (c10_upstream_body_exact_fields (some "k") mockJsonParse mockUpstreamSuccess "t"
    (Event.mk "POST" (some extraFieldBodyText)) extraFieldPayload []
    rfl rfl rfl rfl).2

end Chat
